import Mathlib

/-!
Shallow embedding of `src/server/api/routers/friendship-request-router.ts`:
the friendship edge store (table `friendships`), the two middleware guards
`canSendFriendshipRequest` / `canAnswerFriendshipRequest`, and the three
mutations `send`, `accept`, `decline`.

The database is modelled as a list of rows plus a list of existing user ids.
Each operation returns the store as observed after the call together with an
optional error: a guard failure or a rolled-back transaction leaves the store
unchanged, mirroring kysely semantics (a thrown error inside
`db.transaction().execute` rolls the whole transaction back).
-/

/-- The `status` column: `FriendshipStatusSchema.Values`. -/
inductive FriendshipStatus where
  | requested
  | accepted
  | declined
deriving DecidableEq, Repr

/-- One row of the `friendships` table (the auto-generated `id` column is
only ever used for existence checks in the source, so it is omitted). -/
structure Friendship where
  userId : Nat
  friendUserId : Nat
  status : FriendshipStatus
deriving DecidableEq, Repr

/-- The database state: the `users` table (only its ids matter to this router)
and the `friendships` table. -/
structure DB where
  users : List Nat
  friendships : List Friendship
deriving DecidableEq, Repr

/-- Errors surfaced by the operations. The guards throw `BAD_REQUEST`
TRPCErrors; the spec names them `InvalidTarget` (send guard) and
`NoPendingRequest` (answer guard). `conflict` is a storage-layer uniqueness
violation and `storageFailure` an injected storage-level fault. -/
inductive Err where
  | invalidTarget
  | noPendingRequest
  | conflict
  | storageFailure
deriving DecidableEq, Repr

/-- The `where userId = u and friendUserId = f` clause shared by every
query in the router. -/
def isPair (u f : Nat) (r : Friendship) : Bool :=
  r.userId == u && r.friendUserId == f

/-- The row transformer of send's UPDATE statement: rows of the pair
`(u, f)` with status `declined` are set to `requested`. -/
def sendRevive (u f : Nat) (r : Friendship) : Friendship :=
  if isPair u f r && r.status == .declined then { r with status := .requested }
  else r

/-- The row transformer of the two UPDATE statements inside accept's
transaction: rows of the pair `(u, f)` with status `requested` are set to
`accepted`. -/
def acceptUpdate (u f : Nat) (r : Friendship) : Friendship :=
  if isPair u f r && r.status == .requested then { r with status := .accepted }
  else r

/-- The row transformer of decline's UPDATE statement: rows of the pair
`(u, f)` with status `requested` are set to `declined`. -/
def declineUpdate (u f : Nat) (r : Friendship) : Friendship :=
  if isPair u f r && r.status == .requested then { r with status := .declined }
  else r

/-- Modelled from the spec: the storage layer's uniqueness constraint on the
ordered pair `(userId, friendUserId)`. The schema/migration files of the
repository are not among the extracted sources; per spec sections 3 and 4.1
("Uniqueness invariant: at most one edge exists per ordered pair";
"surfaces a conflict error only if the uniqueness invariant would otherwise
be violated ... via a unique constraint at the storage layer"), an INSERT
into `friendships` fails with a conflict error when a row for the same
ordered pair already exists, and appends the row otherwise. -/
def insertFriendship (db : DB) (r : Friendship) : Except Err DB :=
  if db.friendships.any (isPair r.userId r.friendUserId) then
    .error .conflict
  else
    .ok { db with friendships := db.friendships ++ [r] }

/-- Guard `canSendFriendshipRequest`: the target user must exist in `users`
(`selectFrom users where id = friendUserId ... executeTakeFirstOrThrow`). -/
def canSendFriendshipRequest (db : DB) (friendUserId : Nat) : Bool :=
  db.users.contains friendUserId

/-- Guard `canAnswerFriendshipRequest`: a row
`(friendUserId, ctx.session.userId)` with status `requested` must exist. -/
def canAnswerFriendshipRequest (db : DB) (sessionUserId friendUserId : Nat) : Bool :=
  db.friendships.any (fun r =>
    isPair friendUserId sessionUserId r && r.status == .requested)

/-- Mutation `send` (router lines 64-111). After the guard, the code looks up
a `declined` row `(sessionUserId, friendUserId)`; if found it updates every
such row in place to `requested`, otherwise it inserts a fresh `requested`
row. -/
def send (db : DB) (sessionUserId friendUserId : Nat) : DB × Option Err :=
  if canSendFriendshipRequest db friendUserId then
    match db.friendships.find? (fun r =>
        isPair sessionUserId friendUserId r && r.status == .declined) with
    | some _ =>
      ({ db with friendships :=
          db.friendships.map (sendRevive sessionUserId friendUserId) }, none)
    | none =>
      match insertFriendship db ⟨sessionUserId, friendUserId, .requested⟩ with
      | .ok db2 => (db2, none)
      | .error e => (db, some e)
  else
    (db, some .invalidTarget)

/-- Mutation `accept` (router lines 113-183), with an oracle `revFails`
injecting a storage-level fault at the reverse-row step of the transaction
(spec section 7, `StorageFailure`); on any error inside the transaction the
whole transaction is rolled back, so the pre-call store is what remains
observable. The transaction body, exactly as in the source:
1. update rows `(sessionUserId, friendUserId)` with status `requested` to
   `accepted`;
2. look up any row `(friendUserId, sessionUserId)`;
3. if absent, insert `(friendUserId, sessionUserId, accepted)`; if present,
   update rows `(friendUserId, sessionUserId)` with status `requested` to
   `accepted`. -/
def acceptGo (revFails : Bool) (db : DB) (sessionUserId friendUserId : Nat) :
    DB × Option Err :=
  if canAnswerFriendshipRequest db sessionUserId friendUserId then
    let db1 : DB :=
      { db with friendships :=
          db.friendships.map (acceptUpdate sessionUserId friendUserId) }
    if revFails then
      (db, some .storageFailure)
    else
      match db1.friendships.find? (isPair friendUserId sessionUserId) with
      | none =>
        match insertFriendship db1 ⟨friendUserId, sessionUserId, .accepted⟩ with
        | .ok db2 => (db2, none)
        | .error e => (db, some e)
      | some _ =>
        ({ db1 with friendships :=
            db1.friendships.map (acceptUpdate friendUserId sessionUserId) },
          none)
  else
    (db, some .noPendingRequest)

/-- Mutation `accept` as it runs when the storage layer does not fault. -/
def accept (db : DB) (sessionUserId friendUserId : Nat) : DB × Option Err :=
  acceptGo false db sessionUserId friendUserId

/-- Mutation `decline` (router lines 185-210): update rows
`(friendUserId, sessionUserId)` with status `requested` to `declined`. -/
def decline (db : DB) (sessionUserId friendUserId : Nat) : DB × Option Err :=
  if canAnswerFriendshipRequest db sessionUserId friendUserId then
    ({ db with friendships :=
        db.friendships.map (declineUpdate friendUserId sessionUserId) }, none)
  else
    (db, some .noPendingRequest)

/-! Helper lemmas about rows and list operations. -/

/-- Changing only the `status` field of a row does not change which ordered
pair the row belongs to. -/
theorem isPair_set_status (u f : Nat) (r : Friendship) (s : FriendshipStatus) :
    isPair u f { r with status := s } = isPair u f r := rfl

/-- `sendRevive` only touches the status, never the pair. -/
theorem isPair_sendRevive (u f u' f' : Nat) (r : Friendship) :
    isPair u f (sendRevive u' f' r) = isPair u f r := by
  unfold sendRevive
  split
  · exact isPair_set_status u f r .requested
  · rfl

/-- `acceptUpdate` only touches the status, never the pair. -/
theorem isPair_acceptUpdate (u f u' f' : Nat) (r : Friendship) :
    isPair u f (acceptUpdate u' f' r) = isPair u f r := by
  unfold acceptUpdate
  split
  · exact isPair_set_status u f r .accepted
  · rfl

/-- `declineUpdate` only touches the status, never the pair. -/
theorem isPair_declineUpdate (u f u' f' : Nat) (r : Friendship) :
    isPair u f (declineUpdate u' f' r) = isPair u f r := by
  unfold declineUpdate
  split
  · exact isPair_set_status u f r .declined
  · rfl

/-- A row outside the targeted pair is untouched by `sendRevive`. -/
theorem sendRevive_not_pair {u f : Nat} {r : Friendship}
    (h : isPair u f r = false) : sendRevive u f r = r := by
  simp [sendRevive, h]

/-- A row outside the targeted pair is untouched by `declineUpdate`. -/
theorem declineUpdate_not_pair {u f : Nat} {r : Friendship}
    (h : isPair u f r = false) : declineUpdate u f r = r := by
  simp [declineUpdate, h]

/-- Filtering commutes with a map that preserves the filtered predicate. -/
theorem filter_map_pres (p : Friendship → Bool) (f : Friendship → Friendship)
    (hf : ∀ r, p (f r) = p r) (l : List Friendship) :
    (l.map f).filter p = (l.filter p).map f := by
  rw [List.filter_map]
  exact congrArg (List.map f) (List.filter_congr fun a _ => hf a)

/-- Counting matches commutes with a map that preserves the counted
predicate. -/
theorem countP_map_pres (p : Friendship → Bool) (f : Friendship → Friendship)
    (hf : ∀ r, p (f r) = p r) (l : List Friendship) :
    (l.map f).countP p = l.countP p := by
  rw [List.countP_eq_length_filter, filter_map_pres p f hf, List.length_map,
    List.countP_eq_length_filter]

/-- If the filtered sublist is the singleton `[x]`, every member of the list
satisfying the predicate equals `x`. -/
theorem eq_of_filter_singleton {p : Friendship → Bool} {l : List Friendship}
    {x : Friendship} (h : l.filter p = [x]) :
    ∀ r ∈ l, p r = true → r = x := by
  intro r hr hp
  have hrf : r ∈ l.filter p := List.mem_filter.2 ⟨hr, hp⟩
  rw [h] at hrf
  simpa using hrf

/-- If the filtered sublist is the singleton `[x]`, then `x` is in the list
and satisfies the predicate. -/
theorem mem_of_filter_singleton {p : Friendship → Bool} {l : List Friendship}
    {x : Friendship} (h : l.filter p = [x]) : x ∈ l ∧ p x = true := by
  have hx : x ∈ l.filter p := by rw [h]; exact List.mem_singleton.2 rfl
  exact List.mem_filter.1 hx

/-- C1: the claim fails on the code. From the state holding only
`(1, 2, requested)`, `accept` by actor `2` on requester `1` updates that row
to `accepted` and never creates the reverse row `(2, 1, accepted)`: the
forward update targets the pair `(2, 1)` (absent), and the reverse lookup
targets `(1, 2)`, which the guard guarantees exists, so the insert branch is
unreachable. This contradicts the router's own documentation block, which
shows both directional rows `accepted` as the required end state. -/
theorem C1_accept_missing_reverse_row :
    accept ⟨[1, 2], [⟨1, 2, .requested⟩]⟩ 2 1
      = (⟨[1, 2], [⟨1, 2, .accepted⟩]⟩, none)
    ∧ Friendship.mk 2 1 .accepted
        ∉ (accept ⟨[1, 2], [⟨1, 2, .requested⟩]⟩ 2 1).1.friendships := by
  decide

/-- C4: starting from exactly the two rows `(A, B, requested)` and
`(B, A, requested)`, `accept` by actor `B` on requester `A` ends with both
rows `accepted` and no third row inserted. -/
theorem C4_accept_mutual_requests (users : List Nat) (A B : Nat) :
    accept ⟨users, [⟨A, B, .requested⟩, ⟨B, A, .requested⟩]⟩ B A
      = (⟨users, [⟨A, B, .accepted⟩, ⟨B, A, .accepted⟩]⟩, none) := by
  rcases eq_or_ne A B with h | h
  · subst h
    simp [accept, acceptGo, canAnswerFriendshipRequest, acceptUpdate, isPair,
      List.find?_cons]
  · simp [accept, acceptGo, canAnswerFriendshipRequest, acceptUpdate, isPair,
      List.find?_cons, h, Ne.symm h]

/-- C8: when the target id is not an existing user, `send` fails in the
`canSendFriendshipRequest` guard with the invalid-target error and the store
is unchanged. -/
theorem C8_invalid_target_error (db : DB) (actor target : Nat)
    (h : target ∉ db.users) :
    send db actor target = (db, some .invalidTarget) := by
  have hguard : canSendFriendshipRequest db target = false := by
    simpa [canSendFriendshipRequest] using h
  simp [send, hguard]

/-- C7: when no row `(requester, actor)` with status `requested` exists,
both `accept` and `decline` fail in the `canAnswerFriendshipRequest` guard
with the no-pending-request error and leave the store unchanged. -/
theorem C7_no_pending_request_error (db : DB) (actor requester : Nat)
    (h : ∀ r ∈ db.friendships,
      isPair requester actor r = true → r.status ≠ .requested) :
    accept db actor requester = (db, some .noPendingRequest)
    ∧ decline db actor requester = (db, some .noPendingRequest) := by
  have hguard : canAnswerFriendshipRequest db actor requester = false := by
    rw [canAnswerFriendshipRequest, List.any_eq_false]
    intro x hx
    by_cases hp : isPair requester actor x = true
    · simp [hp, h x hx hp]
    · simp [hp]
  constructor <;> simp [accept, acceptGo, decline, hguard]

/-- C10: the send guard only checks that the target exists, so a
self-request from a user `A` with no prior `(A, A)` row succeeds and inserts
the self-edge `(A, A, requested)`. -/
theorem C10_self_request_allowed (db : DB) (A : Nat) (hA : A ∈ db.users)
    (h0 : ∀ r ∈ db.friendships, isPair A A r = false) :
    send db A A
      = ({ db with friendships := db.friendships ++ [⟨A, A, .requested⟩] },
        none) := by
  have hguard : canSendFriendshipRequest db A = true := by
    simpa [canSendFriendshipRequest] using hA
  have hfind : db.friendships.find? (fun r =>
      isPair A A r && r.status == .declined) = none := by
    rw [List.find?_eq_none]
    intro x hx
    simp [h0 x hx]
  have hany : db.friendships.any (isPair A A) = false := by
    rw [List.any_eq_false]
    intro x hx
    simp [h0 x hx]
  simp [send, hguard, hfind, insertFriendship, hany]

/-- C2: from a store holding no `(A, B)` row, sending twice leaves exactly
one row `(A, B, requested)`; and in general, a `send` call never creates a
second row for an ordered pair that already has a row, whatever its status —
the insert path hits the storage-layer uniqueness constraint and surfaces a
conflict instead of duplicating, and the declined-update path rewrites rows
in place. -/
theorem C2_send_never_duplicates (db : DB) (A B : Nat)
    (h1 : B ∈ db.users) (h2 : db.friendships.countP (isPair A B) = 0) :
    ((send (send db A B).1 A B).1.friendships.filter (isPair A B)
        = [Friendship.mk A B .requested])
    ∧ ∀ db' : DB, 0 < db'.friendships.countP (isPair A B) →
        (send db' A B).1.friendships.countP (isPair A B)
          = db'.friendships.countP (isPair A B) := by
  constructor
  · have hall : ∀ r ∈ db.friendships, isPair A B r = false := by
      intro r hr
      have hnr := List.countP_eq_zero.1 h2 r hr
      simpa using hnr
    have hguard : canSendFriendshipRequest db B = true := by
      simpa [canSendFriendshipRequest] using h1
    have hfind : db.friendships.find? (fun r =>
        isPair A B r && r.status == .declined) = none := by
      rw [List.find?_eq_none]
      intro x hx
      simp [hall x hx]
    have hany : db.friendships.any (isPair A B) = false := by
      rw [List.any_eq_false]
      intro x hx
      simp [hall x hx]
    have hsend1 : send db A B
        = ({ db with friendships :=
            db.friendships ++ [Friendship.mk A B .requested] }, none) := by
      simp [send, hguard, hfind, insertFriendship, hany]
    rw [hsend1]
    have hguard2 : canSendFriendshipRequest
        { db with friendships :=
          db.friendships ++ [Friendship.mk A B .requested] } B = true := hguard
    have hfind2 : (db.friendships ++ [Friendship.mk A B .requested]).find?
        (fun r => isPair A B r && r.status == .declined) = none := by
      rw [List.find?_eq_none]
      intro x hx
      rcases List.mem_append.1 hx with hx | hx
      · simp [hall x hx]
      · have hx' : x = Friendship.mk A B .requested := by simpa using hx
        subst hx'
        simp
    have hany2 : (db.friendships ++ [Friendship.mk A B .requested]).any
        (isPair A B) = true := by
      rw [List.any_eq_true]
      refine ⟨Friendship.mk A B .requested,
        List.mem_append_right _ (by simp), ?_⟩
      simp [isPair]
    have hnilf : db.friendships.filter (isPair A B) = [] := by
      rw [List.filter_eq_nil_iff]
      intro x hx
      simp [hall x hx]
    have hsend2 : send { db with friendships :=
          db.friendships ++ [Friendship.mk A B .requested] } A B
        = ({ db with friendships :=
            db.friendships ++ [Friendship.mk A B .requested] },
          some .conflict) := by
      simp [send, hguard2, hfind2, insertFriendship, hany2]
    rw [hsend2]
    simp [List.filter_append, hnilf, isPair]
  · intro db' hpos
    by_cases hg : canSendFriendshipRequest db' B = true
    · cases hfind : db'.friendships.find? (fun r =>
          isPair A B r && r.status == .declined) with
      | some y =>
        have hres : send db' A B
            = ({ db' with friendships :=
                db'.friendships.map (sendRevive A B) }, none) := by
          simp [send, hg, hfind]
        rw [hres]
        exact countP_map_pres _ _ (fun r => isPair_sendRevive A B A B r) _
      | none =>
        have hany : db'.friendships.any (isPair A B) = true := by
          rw [List.any_eq_true]
          exact List.countP_pos_iff.1 hpos
        simp [send, hg, hfind, insertFriendship, hany]
    · simp [send, hg]

/-- C3: when the store's only `(A, B)` row has status `declined` and `B`
exists, `send` by `A` to `B` succeeds with no error, rewrites that row in
place to `requested`, and leaves every other row and the row count
unchanged (no duplicate). -/
theorem C3_resend_after_decline (db : DB) (A B : Nat)
    (hu : B ∈ db.users)
    (hf : db.friendships.filter (isPair A B) = [Friendship.mk A B .declined]) :
    (send db A B).2 = none
    ∧ (send db A B).1.friendships.filter (isPair A B)
        = [Friendship.mk A B .requested]
    ∧ (send db A B).1.friendships.length = db.friendships.length
    ∧ ∀ r ∈ db.friendships, isPair A B r = false →
        r ∈ (send db A B).1.friendships := by
  have hmem := mem_of_filter_singleton hf
  have hguard : canSendFriendshipRequest db B = true := by
    simpa [canSendFriendshipRequest] using hu
  have hs : (db.friendships.find? (fun r =>
      isPair A B r && r.status == .declined)).isSome := by
    rw [List.find?_isSome]
    exact ⟨Friendship.mk A B .declined, hmem.1, by simp [hmem.2]⟩
  obtain ⟨y, hy⟩ := Option.isSome_iff_exists.1 hs
  have hres : send db A B
      = ({ db with friendships := db.friendships.map (sendRevive A B) },
        none) := by
    simp [send, hguard, hy]
  rw [hres]
  refine ⟨rfl, ?_, ?_, ?_⟩
  · show (db.friendships.map (sendRevive A B)).filter (isPair A B)
      = [Friendship.mk A B .requested]
    rw [filter_map_pres (isPair A B) (sendRevive A B)
      (fun r => isPair_sendRevive A B A B r) db.friendships, hf]
    simp [sendRevive, isPair]
  · simp
  · intro r hr hp
    refine List.mem_map.2 ⟨r, hr, ?_⟩
    exact sendRevive_not_pair hp

/-- C9: when the store's only `(A, B)` row has status `requested`, `decline`
by actor `B` on requester `A` succeeds, rewrites exactly the `(A, B)` row to
`declined`, and every other row — in particular any `(B, A)` row — is left
unchanged. -/
theorem C9_decline_only_forward_row (db : DB) (A B : Nat)
    (hf : db.friendships.filter (isPair A B)
      = [Friendship.mk A B .requested]) :
    (decline db B A).2 = none
    ∧ (decline db B A).1.friendships.filter (isPair A B)
        = [Friendship.mk A B .declined]
    ∧ (decline db B A).1.friendships.length = db.friendships.length
    ∧ ∀ r ∈ db.friendships, isPair A B r = false →
        r ∈ (decline db B A).1.friendships := by
  have hmem := mem_of_filter_singleton hf
  have hguard : canAnswerFriendshipRequest db B A = true := by
    rw [canAnswerFriendshipRequest, List.any_eq_true]
    exact ⟨Friendship.mk A B .requested, hmem.1, by simp [hmem.2]⟩
  have hres : decline db B A
      = ({ db with friendships := db.friendships.map (declineUpdate A B) },
        none) := by
    simp [decline, hguard]
  rw [hres]
  refine ⟨rfl, ?_, ?_, ?_⟩
  · show (db.friendships.map (declineUpdate A B)).filter (isPair A B)
      = [Friendship.mk A B .declined]
    rw [filter_map_pres (isPair A B) (declineUpdate A B)
      (fun r => isPair_declineUpdate A B A B r) db.friendships, hf]
    simp [declineUpdate, isPair]
  · simp
  · intro r hr hp
    refine List.mem_map.2 ⟨r, hr, ?_⟩
    exact declineUpdate_not_pair hp

/-- C6: if the reverse-row step of `accept`'s transaction faults after the
forward update has run, the whole transaction rolls back: the call returns a
storage-failure error, the observable store is the pre-call store, and that
store contains no `(A, B, accepted)` row at all — partial acceptance is
never observable. -/
theorem C6_accept_rolls_back (db : DB) (A B : Nat)
    (hf : db.friendships.filter (isPair A B)
      = [Friendship.mk A B .requested]) :
    acceptGo true db B A = (db, some .storageFailure)
    ∧ Friendship.mk A B .accepted ∉ (acceptGo true db B A).1.friendships := by
  have hmem := mem_of_filter_singleton hf
  have hguard : canAnswerFriendshipRequest db B A = true := by
    rw [canAnswerFriendshipRequest, List.any_eq_true]
    exact ⟨Friendship.mk A B .requested, hmem.1, by simp [hmem.2]⟩
  have heq : acceptGo true db B A = (db, some .storageFailure) := by
    simp [acceptGo, hguard]
  refine ⟨heq, ?_⟩
  rw [heq]
  intro hcon
  have hcx := eq_of_filter_singleton hf _ hcon (by simp [isPair])
  simp at hcx

/-- C5 counterexample: the claim fails on the code when the reverse edge is
`declined`. From `(1, 2, requested)` and `(2, 1, declined)`, `accept` by
actor `2` on requester `1` leaves the reverse edge `(2, 1)` at `declined`:
the only write touching the `(2, 1)` pair filters on status `requested`. -/
theorem C5_declined_reverse_counterexample :
    (accept ⟨[1, 2], [⟨1, 2, .requested⟩, ⟨2, 1, .declined⟩]⟩ 2 1).1.friendships
      = [⟨1, 2, .accepted⟩, ⟨2, 1, .declined⟩]
    ∧ Friendship.mk 2 1 .accepted
        ∉ (accept ⟨[1, 2],
            [⟨1, 2, .requested⟩, ⟨2, 1, .declined⟩]⟩ 2 1).1.friendships := by
  decide

/-- C5 as amended: during `accept` by actor `B` on requester `A`, a present
reverse edge `(B, A)` is updated to `accepted` only when its prior status is
`requested`; with prior status `declined` or `accepted` the reverse edge
keeps its prior status. -/
theorem C5_reverse_updated_only_from_requested (users : List Nat) (A B : Nat)
    (s : FriendshipStatus) (h : A ≠ B) :
    accept ⟨users, [⟨A, B, .requested⟩, ⟨B, A, s⟩]⟩ B A
      = (⟨users, [⟨A, B, .accepted⟩,
          ⟨B, A, if s = .requested then .accepted else s⟩]⟩, none) := by
  cases s <;>
    simp [accept, acceptGo, canAnswerFriendshipRequest, acceptUpdate, isPair,
      List.find?_cons, h, Ne.symm h]

/-- Witness for C2 at a concrete store: user 2 exists and no (1,2) row. -/
theorem C2_send_never_duplicates_witness :
    ((send (send ⟨[2], []⟩ 1 2).1 1 2).1.friendships.filter (isPair 1 2)
      = [Friendship.mk 1 2 .requested]) :=
  (C2_send_never_duplicates ⟨[2], []⟩ 1 2 (by decide) (by decide)).1

/-- Witness for C3 at a concrete store holding one declined (1,2) row. -/
theorem C3_resend_after_decline_witness :
    (send ⟨[2], [⟨1, 2, .declined⟩]⟩ 1 2).2 = none
    ∧ (send ⟨[2], [⟨1, 2, .declined⟩]⟩ 1 2).1.friendships.filter (isPair 1 2)
      = [Friendship.mk 1 2 .requested] :=
  ⟨(C3_resend_after_decline ⟨[2], [⟨1, 2, .declined⟩]⟩ 1 2 (by decide)
      (by decide)).1,
    (C3_resend_after_decline ⟨[2], [⟨1, 2, .declined⟩]⟩ 1 2 (by decide)
      (by decide)).2.1⟩

/-- Witness for the amended C5 at a declined reverse edge. -/
theorem C5_reverse_updated_only_from_requested_witness :
    accept ⟨[1, 2], [⟨1, 2, .requested⟩, ⟨2, 1, .declined⟩]⟩ 2 1
      = (⟨[1, 2], [⟨1, 2, .accepted⟩, ⟨2, 1, .declined⟩]⟩, none) := by
  have h := C5_reverse_updated_only_from_requested [1, 2] 1 2 .declined
    (by decide)
  simpa using h

/-- Witness for C6 at a concrete store holding one requested (1,2) row. -/
theorem C6_accept_rolls_back_witness :
    acceptGo true ⟨[1, 2], [⟨1, 2, .requested⟩]⟩ 2 1
      = (⟨[1, 2], [⟨1, 2, .requested⟩]⟩, some .storageFailure) :=
  (C6_accept_rolls_back ⟨[1, 2], [⟨1, 2, .requested⟩]⟩ 1 2 (by decide)).1

/-- Witness for C7 at an empty friendship store. -/
theorem C7_no_pending_request_error_witness :
    accept ⟨[1, 2], []⟩ 2 1 = (⟨[1, 2], []⟩, some .noPendingRequest)
    ∧ decline ⟨[1, 2], []⟩ 2 1 = (⟨[1, 2], []⟩, some .noPendingRequest) :=
  C7_no_pending_request_error ⟨[1, 2], []⟩ 2 1 (by decide)

/-- Witness for C8 at a store whose only user is 1. -/
theorem C8_invalid_target_error_witness :
    send ⟨[1], []⟩ 1 5 = (⟨[1], []⟩, some .invalidTarget) :=
  C8_invalid_target_error ⟨[1], []⟩ 1 5 (by decide)

/-- Witness for C9 at a store with mutual requests: declining (1,2) leaves
(2,1) untouched. -/
theorem C9_decline_only_forward_row_witness :
    (decline ⟨[1, 2], [⟨1, 2, .requested⟩, ⟨2, 1, .requested⟩]⟩ 2 1).2 = none
    ∧ (decline ⟨[1, 2],
        [⟨1, 2, .requested⟩, ⟨2, 1, .requested⟩]⟩ 2 1).1.friendships.filter
          (isPair 1 2) = [Friendship.mk 1 2 .declined] :=
  ⟨(C9_decline_only_forward_row ⟨[1, 2],
      [⟨1, 2, .requested⟩, ⟨2, 1, .requested⟩]⟩ 1 2 (by decide)).1,
    (C9_decline_only_forward_row ⟨[1, 2],
      [⟨1, 2, .requested⟩, ⟨2, 1, .requested⟩]⟩ 1 2 (by decide)).2.1⟩

/-- Witness for C10: user 1 self-requests on an empty store. -/
theorem C10_self_request_allowed_witness :
    send ⟨[1], []⟩ 1 1 = (⟨[1], [⟨1, 1, .requested⟩]⟩, none) := by
  have h := C10_self_request_allowed ⟨[1], []⟩ 1 (by decide) (by decide)
  simpa using h
